import Mathlib

/-!
Verification of the usage-quota engine of `the-romy`.

The embedding translates `src/lib/usage.ts` and
`src/lib/subscriptions/check-access.ts` (and the `TIER_LIMITS` table from
`src/lib/subscriptions/config.ts`, whose text is embedded in
`SUBSCRIPTION_SETUP.md`) into pure Lean functions.

Modelling conventions:
- A JS `Date` / timestamp column is a `Nat` of milliseconds since the Unix
  epoch (all stored timestamps are post-1970).
- Nullable database columns are `Option _`; the JS `x || 0` idiom on counters
  becomes `Option.getD _ 0`, and `subscription_tier || 'free'` becomes
  `resolveTier` (the empty string is the only falsy non-null string).
- A function that may `throw` returns its result inside `Except`; since the
  quota functions also write resets to the store before a possible throw,
  `checkUsage`/`checkProUsage` return the post-write database row *paired*
  with the `Except` outcome.
- The numeric limits imported from `@/lib/config`
  (`NON_AUTH_DAILY_MESSAGE_LIMIT`, `DAILY_LIMIT_PRO_MODELS`) and the
  `FREE_MODELS_IDS` list are not present under `src/`; the functions take
  them as explicit parameters, exactly as the TS functions consume the
  imported constants.
- Indexing `TIER_LIMITS` with a string outside its domain yields JS
  `undefined`; dereferencing a field of that value throws a `TypeError`.
  The lookup is therefore `Option TierLimits`, and each *field access site*
  in the TS code becomes a `match` that raises `CheckError.jsTypeError`
  when the lookup was `none`.
-/

deriving instance DecidableEq for Except

/-- Row of the `users` table, restricted to the columns the quota engine
reads and writes (see the `select` lists in `src/lib/usage.ts` and the
migration in the repository). -/
structure UserRow where
  message_count : Option Nat := none
  daily_message_count : Option Nat := none
  daily_reset : Option Nat := none
  anonymous : Bool := false
  subscription_tier : Option String := none
  subscription_status : Option String := none
  monthly_message_count : Option Nat := none
  monthly_reset : Option Nat := none
  subscription_period_end : Option Nat := none
  daily_pro_message_count : Option Nat := none
  daily_pro_reset : Option Nat := none
  last_active_at : Option Nat := none
  deriving DecidableEq, Repr

/-- Limits of one tier; `dailyMessages = none` models the TS value
`Infinity`, `monthlyMessages = none` models `null` (unlimited). -/
structure TierLimits where
  dailyMessages : Option Nat
  monthlyMessages : Option Nat
  proModels : Bool
  premiumModels : Bool
  fileUploads : Option Nat
  deriving DecidableEq, Repr

/-- The `TIER_LIMITS` table from `src/lib/subscriptions/config.ts`.
Indexing with a string outside the four keys yields `none`
(JS `undefined`). -/
def TIER_LIMITS : String → Option TierLimits
  | "free" => some ⟨some 1000, none, false, false, some 5⟩
  | "pro" => some ⟨none, some 100, true, false, some 20⟩
  | "max" => some ⟨none, none, true, false, none⟩
  | "ultra" => some ⟨none, none, true, true, none⟩
  | _ => none

/-- The idiom `userData.subscription_tier || 'free'`: `null`/`undefined`
and the empty string fall back to `'free'`; any other string passes
through unchanged. -/
def resolveTier (t : Option String) : String :=
  match t with
  | none => "free"
  | some s => if s = "" then "free" else s

/-- Civil (year, month, day) from a count of days since 1970-01-01,
following the standard Gregorian conversion; this is what the JS
`Date.getUTCFullYear/getUTCMonth/getUTCDate` triple computes (with the
month here 1-based where JS is 0-based — only equality of triples is
ever consumed). -/
def civilFromDays (z0 : Int) : Int × Int × Int :=
  let z := z0 + 719468
  let era : Int := (if 0 ≤ z then z else z - 146096) / 146097
  let doe : Int := z - era * 146097
  let yoe : Int := (doe - doe / 1460 + doe / 36524 - doe / 146096) / 365
  let y : Int := yoe + era * 400
  let doy : Int := doe - (365 * yoe + yoe / 4 - yoe / 100)
  let mp : Int := (5 * doy + 2) / 153
  let d : Int := doy - (153 * mp + 2) / 5 + 1
  let m : Int := if mp < 10 then mp + 3 else mp - 9
  (if m ≤ 2 then y + 1 else y, m, d)

/-- UTC calendar date of an epoch-millisecond timestamp. -/
def utcDate (ms : Nat) : Int × Int × Int :=
  civilFromDays ((ms : Int) / 86400000)

/-- The `isNewDay` test of `checkUsage`/`checkProUsage`: true iff the
stored reset timestamp is absent or its UTC year/month/day triple
differs from `now`'s. -/
def isNewDayB (now : Nat) (lastReset : Option Nat) : Bool :=
  match lastReset with
  | none => true
  | some l => decide (utcDate now ≠ utcDate l)

/-- Errors the quota functions throw: `usageLimit` is the
`UsageLimitError` class, `jsTypeError` is the runtime `TypeError` from
dereferencing an `undefined` limits object. -/
inductive CheckError where
  | usageLimit (msg : String)
  | jsTypeError
  deriving DecidableEq, Repr

/-- The record returned by a successful `checkUsage`. -/
structure CheckOk where
  dailyCount : Nat
  dailyLimit : Option Nat
  tier : String
  monthlyCount : Nat
  deriving DecidableEq, Repr

/-- The pro-tier monthly block of `checkUsage` (src/lib/usage.ts lines
47-73), executed only when `tier === 'pro' && status === 'active'`:
reset the monthly counter when the billing period has elapsed, then
throw when the monthly limit (read off the tier's limits object) is
reached. Returns the post-write row and the error to throw, if any. -/
def proMonthlyStage (tierLimits : Option TierLimits) (now : Nat) (userData : UserRow) :
    UserRow × Option CheckError :=
  let monthlyCount := userData.monthly_message_count.getD 0
  let resetDue : Bool :=
    match userData.subscription_period_end with
    | some pe => decide (pe ≤ now)
    | none => false
  let db :=
    if resetDue then
      { userData with monthly_message_count := some 0, monthly_reset := some now }
    else userData
  let monthlyCount := if resetDue then 0 else monthlyCount
  match tierLimits with
  | none => (db, some CheckError.jsTypeError)
  | some tl =>
    match tl.monthlyMessages with
    | some lim =>
      if lim ≤ monthlyCount then
        (db, some (CheckError.usageLimit
          "Monthly message limit reached. Upgrade to Max for unlimited messages."))
      else (db, none)
    | none => (db, none)

/-- The daily window part of `checkUsage` (lines 80-106 and the final
return): reset the daily counter on a UTC day change, then throw when
the daily limit is finite and reached. `userData` is the fetched row
(whose counters the code keeps reading), `db` the store row as left by
the earlier monthly write. -/
def dailyStage (tier : String) (dailyLimit : Option Nat) (now : Nat)
    (userData db : UserRow) : UserRow × Except CheckError CheckOk :=
  let dailyCount := userData.daily_message_count.getD 0
  let newDay := isNewDayB now userData.daily_reset
  let db :=
    if newDay then
      { db with daily_message_count := some 0, daily_reset := some now }
    else db
  let dailyCount := if newDay then 0 else dailyCount
  match dailyLimit with
  | some l =>
    if l ≤ dailyCount then
      (db, Except.error (CheckError.usageLimit "Daily message limit reached."))
    else
      (db, Except.ok ⟨dailyCount, dailyLimit, tier, userData.monthly_message_count.getD 0⟩)
  | none =>
    (db, Except.ok ⟨dailyCount, dailyLimit, tier, userData.monthly_message_count.getD 0⟩)

/-- Body of `checkUsage` (src/lib/usage.ts lines 41-115), after the user
row has been fetched. Returns the database row as left by the function's
reset writes, paired with the thrown-or-returned outcome. -/
def checkUsage (nonAuthDailyLimit : Nat) (now : Nat) (userData : UserRow) :
    UserRow × Except CheckError CheckOk :=
  let tier := resolveTier userData.subscription_tier
  let tierLimits := TIER_LIMITS tier
  let isAnonymous := userData.anonymous
  -- Pro tier monthly block (lines 47-73)
  let mres : UserRow × Option CheckError :=
    if tier = "pro" ∧ userData.subscription_status = some "active" then
      proMonthlyStage tierLimits now userData
    else (userData, none)
  match mres with
  | (db, some e) => (db, Except.error e)
  | (db, none) =>
    -- dailyLimit selection (lines 76-78); dereferences the limits object
    -- only for non-anonymous users
    let dailyLimitStage : Except CheckError (Option Nat) :=
      if isAnonymous then Except.ok (some nonAuthDailyLimit)
      else
        match tierLimits with
        | none => Except.error CheckError.jsTypeError
        | some tl => Except.ok tl.dailyMessages
    match dailyLimitStage with
    | Except.error e => (db, Except.error e)
    | Except.ok dailyLimit => dailyStage tier dailyLimit now userData db

/-- Outcome of the initial store read performed by `checkUsage`. -/
inductive StoreRead where
  | ok (row : UserRow)
  | err (msg : String)
  | missing
  deriving Repr

/-- Entry of `checkUsage` including the fetch step (lines 26-39): a store
read error or a missing record is thrown as a generic `Error`, distinct
from the quota outcomes. -/
def checkUsageEntry (nonAuthDailyLimit : Nat) (now : Nat) (userId : String) :
    StoreRead → Except String (UserRow × Except CheckError CheckOk)
  | StoreRead.err e => Except.error ("Error fetchClienting user data: " ++ e)
  | StoreRead.missing => Except.error ("User record not found for id: " ++ userId)
  | StoreRead.ok row => Except.ok (checkUsage nonAuthDailyLimit now row)

/-- Body of `checkProUsage` (lines 186-222), after the fetch. Returns the
post-write row and the `(dailyProCount, limit)` pair. -/
def checkProUsage (dailyLimitProModels : Nat) (now : Nat) (userData : UserRow) :
    UserRow × Except CheckError (Nat × Nat) :=
  let dailyProCount := userData.daily_pro_message_count.getD 0
  let newDay := isNewDayB now userData.daily_pro_reset
  let db :=
    if newDay then
      { userData with daily_pro_message_count := some 0, daily_pro_reset := some now }
    else userData
  let dailyProCount := if newDay then 0 else dailyProCount
  if dailyLimitProModels ≤ dailyProCount then
    (db, Except.error (CheckError.usageLimit "Daily Pro model limit reached."))
  else (db, Except.ok (dailyProCount, dailyLimitProModels))

/-- The model classifiers of src/lib/usage.ts lines 12-13, parameterised
by the `FREE_MODELS_IDS` list from `@/lib/config`. -/
def isFreeModel (freeModelsIds : List String) (modelId : String) : Bool :=
  freeModelsIds.contains modelId

/-- A model is a pro model iff it is not in the free list. -/
def isProModel (freeModelsIds : List String) (modelId : String) : Bool :=
  !(isFreeModel freeModelsIds modelId)

/-- Successful result of `checkUsageByModel`: either the standard check's
record or the pro check's `(count, limit)` pair. -/
inductive ByModelOk where
  | standard (r : CheckOk)
  | proUsage (dailyProCount : Nat) (limit : Nat)
  deriving DecidableEq, Repr

/-- Body of `checkUsageByModel` (lines 253-267): pro models require
authentication and then route to `checkProUsage`; free models route to
`checkUsage`. -/
def checkUsageByModel (freeModelsIds : List String)
    (nonAuthDailyLimit dailyLimitProModels : Nat) (now : Nat)
    (modelId : String) (isAuthenticated : Bool) (userData : UserRow) :
    UserRow × Except CheckError ByModelOk :=
  if isProModel freeModelsIds modelId then
    if !isAuthenticated then
      (userData, Except.error (CheckError.usageLimit "You must log in to use this model."))
    else
      let r := checkProUsage dailyLimitProModels now userData
      (r.1, r.2.map fun p => ByModelOk.proUsage p.1 p.2)
  else
    let r := checkUsage nonAuthDailyLimit now userData
    (r.1, r.2.map ByModelOk.standard)

/-- Body of `incrementUsage` (lines 143-170), after the fetch: bumps the
lifetime and daily counters, stamps `last_active_at`, and bumps the
monthly counter only for an active pro subscription. -/
def incrementUsage (now : Nat) (userData : UserRow) : UserRow :=
  let messageCount := userData.message_count.getD 0
  let dailyCount := userData.daily_message_count.getD 0
  let monthlyCount := userData.monthly_message_count.getD 0
  let tier := resolveTier userData.subscription_tier
  let base :=
    { userData with
        message_count := some (messageCount + 1)
        daily_message_count := some (dailyCount + 1)
        last_active_at := some now }
  if tier = "pro" ∧ userData.subscription_status = some "active" then
    { base with monthly_message_count := some (monthlyCount + 1) }
  else base

/-- Body of `incrementProUsage` (lines 238-251), after the fetch. -/
def incrementProUsage (now : Nat) (userData : UserRow) : UserRow :=
  { userData with
      daily_pro_message_count := some (userData.daily_pro_message_count.getD 0 + 1)
      last_active_at := some now }

/-- Body of `incrementUsageByModel` (lines 269-281): for a pro model an
unauthenticated caller is a silent no-op; otherwise route to the
matching incrementer. -/
def incrementUsageByModel (freeModelsIds : List String) (now : Nat)
    (modelId : String) (isAuthenticated : Bool) (userData : UserRow) : UserRow :=
  if isProModel freeModelsIds modelId then
    if !isAuthenticated then userData
    else incrementProUsage now userData
  else incrementUsage now userData

/-- The `canAccessProModels` helper of check-access.ts (lines 54-64):
inactive paid tiers are refused before the limits object is
dereferenced. -/
def canAccessProModels (user : UserRow) : Except CheckError Bool :=
  let tier := resolveTier user.subscription_tier
  let limits := TIER_LIMITS tier
  if tier ≠ "free" ∧ user.subscription_status ≠ some "active" then Except.ok false
  else
    match limits with
    | none => Except.error CheckError.jsTypeError
    | some l => Except.ok l.proModels

/-- The `hasMessageQuota` helper of check-access.ts (lines 78-95). -/
def hasMessageQuota (user : UserRow) : Except CheckError Bool :=
  let tier := resolveTier user.subscription_tier
  let limits := TIER_LIMITS tier
  if tier ≠ "free" ∧ user.subscription_status ≠ some "active" then Except.ok false
  else if tier = "pro" then
    match limits with
    | none => Except.error CheckError.jsTypeError
    | some l =>
      match l.monthlyMessages with
      | some m => Except.ok (decide (user.monthly_message_count.getD 0 < m))
      | none => Except.ok true
  else Except.ok true

/-- The `needsMonthlyReset` helper of check-access.ts (lines 129-146). -/
def needsMonthlyReset (now : Nat) (user : UserRow) : Bool :=
  let tier := resolveTier user.subscription_tier
  if tier ≠ "pro" then false
  else
    match user.subscription_period_end with
    | none => false
    | some pe => decide (pe ≤ now)

/-- Outcome of the `Autumn.check` call inside `checkMessageAccess`:
a result object, an API-level error field, or a thrown exception. -/
inductive AutumnCheckOutcome where
  | result (allowed : Bool) (balance : Option Int) (unlimited : Bool)
  | apiError (msg : String)
  | thrown (msg : String)
  deriving DecidableEq, Repr

/-- The value `checkMessageAccess` resolves with. -/
structure MessageAccess where
  allowed : Bool
  balance : Option Int
  unlimited : Bool
  deriving DecidableEq, Repr

/-- The Autumn `checkMessageAccess` helper (appended revision of
check-access.ts, lines 162-192): an API error yields `allowed=false`;
a thrown exception is caught and deliberately fails open with
`allowed=true`. -/
def checkMessageAccess : AutumnCheckOutcome → MessageAccess
  | AutumnCheckOutcome.result a b u => ⟨a, b, u⟩
  | AutumnCheckOutcome.apiError _ => ⟨false, none, false⟩
  | AutumnCheckOutcome.thrown _ => ⟨true, none, false⟩

/-- Daily count as it stands after `checkUsage`'s daily-reset step. -/
def postResetDaily (now : Nat) (u : UserRow) : Nat :=
  if isNewDayB now u.daily_reset then 0 else u.daily_message_count.getD 0

/-- Whether the billing-period monthly reset fires: `billingPeriodEnd`
present and `now ≥ billingPeriodEnd`. -/
def monthlyResetDue (now : Nat) (u : UserRow) : Bool :=
  match u.subscription_period_end with
  | some pe => decide (pe ≤ now)
  | none => false

/-- Monthly count as it stands after `checkUsage`'s monthly-reset step. -/
def postResetMonthly (now : Nat) (u : UserRow) : Nat :=
  if monthlyResetDue now u then 0 else u.monthly_message_count.getD 0

/-- Concrete rows used by counterexamples and witnesses below.
Timestamps: `0` and `50000` fall on 1970-01-01 UTC, `90000000` on
1970-01-02 UTC. -/
def rowC1 : UserRow :=
  { subscription_tier := some "free", daily_pro_message_count := some 0,
    daily_pro_reset := some 90000000 }

/-- Free-tier row with empty counters. -/
def rowW1 : UserRow := { subscription_tier := some "free" }

/-- Pro tier, subscription not active, daily count far above the free cap,
daily window already current. -/
def rowC2 : UserRow :=
  { daily_message_count := some 5000, daily_reset := some 90000000,
    subscription_tier := some "pro", subscription_status := some "canceled" }

/-- Active pro subscriber at the monthly limit, with a stale daily window. -/
def rowC3 : UserRow :=
  { daily_message_count := some 7, daily_reset := some 0,
    subscription_tier := some "pro", subscription_status := some "active",
    monthly_message_count := some 100 }

/-- Free-tier row with a stale daily window. -/
def rowW3 : UserRow := { daily_message_count := some 3, daily_reset := some 0 }

/-- Active pro subscriber whose billing period has ended. -/
def rowW4 : UserRow :=
  { subscription_tier := some "pro", subscription_status := some "active",
    monthly_message_count := some 42, monthly_reset := some 5,
    subscription_period_end := some 1000 }

/-- Active pro subscriber at the monthly limit with a zero daily count and
no billing period end on record. -/
def rowW5 : UserRow :=
  { subscription_tier := some "pro", subscription_status := some "active",
    monthly_message_count := some 100, daily_message_count := some 0,
    daily_reset := some 50000 }

/-- Active pro subscriber with small counters. -/
def rowW6 : UserRow :=
  { subscription_tier := some "pro", subscription_status := some "active",
    message_count := some 10, daily_message_count := some 2,
    monthly_message_count := some 4, daily_pro_message_count := some 1 }

/-- Row whose stored tier is outside the four defined tiers. -/
def rowC8 : UserRow := { subscription_tier := some "platinum" }

/-- Another row with an out-of-domain stored tier. -/
def rowW8 : UserRow := { subscription_tier := some "gold" }

example : utcDate 0 = (1970, 1, 1) := by decide
example : utcDate 50000 = (1970, 1, 1) := by decide
example : utcDate 90000000 = (1970, 1, 2) := by decide
example : isNewDayB 90000000 (some 50000) = true := by decide
example : isNewDayB 50000 (some 0) = false := by decide

/-! Helper lemmas: stage characterisations used by several claim proofs. -/

theorem proMonthlyStage_pro_eq (now : Nat) (u : UserRow) :
    proMonthlyStage (TIER_LIMITS "pro") now u =
      (if monthlyResetDue now u then
        { u with monthly_message_count := some 0, monthly_reset := some now } else u,
       if 100 ≤ postResetMonthly now u then
         some (CheckError.usageLimit
           "Monthly message limit reached. Upgrade to Max for unlimited messages.")
       else none) := by
  have hrd : (match u.subscription_period_end with
      | some pe => decide (pe ≤ now)
      | none => false) = monthlyResetDue now u := rfl
  simp only [proMonthlyStage, TIER_LIMITS, hrd, postResetMonthly]
  by_cases h : monthlyResetDue now u = true
  all_goals simp [h] <;> split <;> simp_all

theorem dailyStage_snd_some (tier : String) (l now : Nat) (userData db : UserRow) :
    (dailyStage tier (some l) now userData db).2 =
      (if l ≤ postResetDaily now userData then
        Except.error (CheckError.usageLimit "Daily message limit reached.")
      else
        Except.ok ⟨postResetDaily now userData, some l, tier,
          userData.monthly_message_count.getD 0⟩) := by
  simp only [dailyStage, postResetDaily]
  by_cases h : isNewDayB now userData.daily_reset = true
  all_goals simp [h] <;> split <;> simp_all

theorem dailyStage_snd_none (tier : String) (now : Nat) (userData db : UserRow) :
    (dailyStage tier none now userData db).2 =
      Except.ok ⟨postResetDaily now userData, none, tier,
        userData.monthly_message_count.getD 0⟩ := by
  simp only [dailyStage, postResetDaily]

theorem dailyStage_fst (tier : String) (dl : Option Nat) (now : Nat) (userData db : UserRow) :
    (dailyStage tier dl now userData db).1 =
      (if isNewDayB now userData.daily_reset then
        { db with daily_message_count := some 0, daily_reset := some now } else db) := by
  simp only [dailyStage]
  by_cases h : isNewDayB now userData.daily_reset = true <;>
    cases dl <;> simp [h] <;> split <;> simp_all

theorem checkUsage_free_auth (nA now : Nat) (u : UserRow)
    (ht : resolveTier u.subscription_tier = "free") (ha : u.anonymous = false) :
    checkUsage nA now u = dailyStage "free" (some 1000) now u u := by
  simp [checkUsage, ht, ha, TIER_LIMITS]

theorem checkUsage_anon (nA now : Nat) (u : UserRow)
    (hp : ¬(resolveTier u.subscription_tier = "pro" ∧ u.subscription_status = some "active"))
    (ha : u.anonymous = true) :
    checkUsage nA now u = dailyStage (resolveTier u.subscription_tier) (some nA) now u u := by
  simp [checkUsage, hp, ha]

theorem checkUsage_not_proactive_auth (nA now : Nat) (u : UserRow) (tl : TierLimits)
    (h : TIER_LIMITS (resolveTier u.subscription_tier) = some tl)
    (hp : ¬(resolveTier u.subscription_tier = "pro" ∧ u.subscription_status = some "active"))
    (ha : u.anonymous = false) :
    checkUsage nA now u =
      dailyStage (resolveTier u.subscription_tier) tl.dailyMessages now u u := by
  simp [checkUsage, h, hp, ha]

theorem checkUsage_pro_active_throw (nA now : Nat) (u db : UserRow) (e : CheckError)
    (ht : resolveTier u.subscription_tier = "pro") (hs : u.subscription_status = some "active")
    (hpm : proMonthlyStage (TIER_LIMITS "pro") now u = (db, some e)) :
    checkUsage nA now u = (db, Except.error e) := by
  simp only [checkUsage, ht, hs]
  simp only [and_self, if_true, hpm]

theorem checkUsage_pro_active_pass (nA now : Nat) (u db : UserRow)
    (ht : resolveTier u.subscription_tier = "pro") (hs : u.subscription_status = some "active")
    (hpm : proMonthlyStage (TIER_LIMITS "pro") now u = (db, none)) :
    checkUsage nA now u =
      dailyStage "pro" (if u.anonymous = true then some nA else none) now u db := by
  simp only [checkUsage, ht, hs]
  simp only [and_self, if_true, hpm]
  by_cases ha : u.anonymous = true
  · simp [ha]
  · simp [ha, TIER_LIMITS]

theorem checkUsage_unrecognized (nA now : Nat) (u : UserRow)
    (h : TIER_LIMITS (resolveTier u.subscription_tier) = none)
    (ha : u.anonymous = false) :
    checkUsage nA now u = (u, Except.error CheckError.jsTypeError) := by
  have hp : resolveTier u.subscription_tier ≠ "pro" := by
    intro he; rw [he] at h; simp [TIER_LIMITS] at h
  simp [checkUsage, h, hp, ha]

theorem checkProUsage_eq (p now : Nat) (u : UserRow) :
    checkProUsage p now u =
      (let db :=
        if isNewDayB now u.daily_pro_reset then
          { u with daily_pro_message_count := some 0, daily_pro_reset := some now }
        else u
       let c := if isNewDayB now u.daily_pro_reset then 0 else u.daily_pro_message_count.getD 0
       if p ≤ c then
         (db, Except.error (CheckError.usageLimit "Daily Pro model limit reached."))
       else (db, Except.ok (c, p))) := rfl

theorem incrementUsage_parts (now : Nat) (u : UserRow) :
    (incrementUsage now u).message_count = some (u.message_count.getD 0 + 1) ∧
    (incrementUsage now u).daily_message_count = some (u.daily_message_count.getD 0 + 1) ∧
    (incrementUsage now u).monthly_message_count =
      (if resolveTier u.subscription_tier = "pro" ∧ u.subscription_status = some "active"
       then some (u.monthly_message_count.getD 0 + 1) else u.monthly_message_count) ∧
    (incrementUsage now u).daily_pro_message_count = u.daily_pro_message_count ∧
    (incrementUsage now u).last_active_at = some now ∧
    (incrementUsage now u).subscription_tier = u.subscription_tier ∧
    (incrementUsage now u).subscription_status = u.subscription_status := by
  unfold incrementUsage
  split
  case isTrue h => simp [h]
  case isFalse h => simp [h]

theorem iterate_incrementUsage_daily (now n : Nat) (u : UserRow) :
    ((incrementUsage now)^[n] u).daily_message_count.getD 0 =
      u.daily_message_count.getD 0 + n := by
  induction n generalizing u with
  | zero => simp
  | succ k ih =>
    rw [Function.iterate_succ_apply]
    rw [ih, (incrementUsage_parts now u).2.1]
    simp
    omega

theorem iterate_incrementUsage_monthly (now n : Nat) (u : UserRow)
    (h : resolveTier u.subscription_tier = "pro" ∧ u.subscription_status = some "active") :
    ((incrementUsage now)^[n] u).monthly_message_count.getD 0 =
      u.monthly_message_count.getD 0 + n := by
  induction n generalizing u with
  | zero => simp
  | succ k ih =>
    rw [Function.iterate_succ_apply]
    have hp := incrementUsage_parts now u
    have h2 : resolveTier (incrementUsage now u).subscription_tier = "pro" ∧
        (incrementUsage now u).subscription_status = some "active" := by
      rw [hp.2.2.2.2.2.1, hp.2.2.2.2.2.2]; exact h
    rw [ih _ h2, hp.2.2.1]
    simp [h]
    omega

theorem iterate_incrementProUsage (now n : Nat) (u : UserRow) :
    ((incrementProUsage now)^[n] u).daily_pro_message_count.getD 0 =
      u.daily_pro_message_count.getD 0 + n := by
  induction n generalizing u with
  | zero => simp
  | succ k ih =>
    rw [Function.iterate_succ_apply, ih]
    simp [incrementProUsage]
    omega

/-- C9: every standard commit (`incrementUsage`), for every user and tier,
also increments the lifetime `message_count` by exactly 1 and overwrites
`last_active_at` with the current time. -/
theorem standard_commit_bumps_lifetime_and_last_active (now : Nat) (u : UserRow) :
    (incrementUsage now u).message_count = some (u.message_count.getD 0 + 1) ∧
    (incrementUsage now u).last_active_at = some now :=
  ⟨(incrementUsage_parts now u).1, (incrementUsage_parts now u).2.2.2.2.1⟩

/-- C10: for an unauthenticated caller requesting a pro model,
`checkUsageByModel` fails with the usage-limit error
"You must log in to use this model." independently of the stored row (so
before any counter is read, the row is returned untouched), and the
corresponding `incrementUsageByModel` is a silent no-op. -/
theorem unauthenticated_pro_model_denied_and_noop
    (freeModelsIds : List String) (nA dP now : Nat) (modelId : String) (u : UserRow)
    (h : isProModel freeModelsIds modelId = true) :
    checkUsageByModel freeModelsIds nA dP now modelId false u =
      (u, Except.error (CheckError.usageLimit "You must log in to use this model.")) ∧
    incrementUsageByModel freeModelsIds now modelId false u = u := by
  unfold checkUsageByModel incrementUsageByModel
  simp [h]

/-- Witness for C10 at the empty free-model list and an arbitrary model id. -/
theorem unauthenticated_pro_model_denied_and_noop_witness :
    isProModel [] "gpt-5" = true ∧
    (checkUsageByModel [] 1000 500 0 "gpt-5" false {} =
      (({} : UserRow),
        Except.error (CheckError.usageLimit "You must log in to use this model.")) ∧
     incrementUsageByModel [] 0 "gpt-5" false {} = ({} : UserRow)) :=
  ⟨by decide, unauthenticated_pro_model_denied_and_noop [] 1000 500 0 "gpt-5" {} (by decide)⟩

/-- C6: a standard commit increments `daily_message_count` by exactly 1,
and `monthly_message_count` by exactly 1 iff the tier is pro with an
active subscription (otherwise that field is untouched); a pro-model
commit increments `daily_pro_message_count` by exactly 1 and leaves the
standard daily and monthly counters unchanged; iterating a commit N
times raises the corresponding counter by exactly N. -/
theorem commit_counter_effects (now n : Nat) (u : UserRow) :
    (incrementUsage now u).daily_message_count = some (u.daily_message_count.getD 0 + 1) ∧
    (incrementUsage now u).monthly_message_count =
      (if resolveTier u.subscription_tier = "pro" ∧ u.subscription_status = some "active"
       then some (u.monthly_message_count.getD 0 + 1) else u.monthly_message_count) ∧
    (incrementUsage now u).daily_pro_message_count = u.daily_pro_message_count ∧
    (incrementProUsage now u).daily_pro_message_count =
      some (u.daily_pro_message_count.getD 0 + 1) ∧
    (incrementProUsage now u).daily_message_count = u.daily_message_count ∧
    (incrementProUsage now u).monthly_message_count = u.monthly_message_count ∧
    ((incrementUsage now)^[n] u).daily_message_count.getD 0 =
      u.daily_message_count.getD 0 + n ∧
    ((incrementProUsage now)^[n] u).daily_pro_message_count.getD 0 =
      u.daily_pro_message_count.getD 0 + n ∧
    (resolveTier u.subscription_tier = "pro" ∧ u.subscription_status = some "active" →
      ((incrementUsage now)^[n] u).monthly_message_count.getD 0 =
        u.monthly_message_count.getD 0 + n) := by
  refine ⟨(incrementUsage_parts now u).2.1, (incrementUsage_parts now u).2.2.1,
    (incrementUsage_parts now u).2.2.2.1, rfl, rfl, rfl,
    iterate_incrementUsage_daily now n u, iterate_incrementProUsage now n u,
    fun h => iterate_incrementUsage_monthly now n u h⟩

/-- Witness for C6 at an active pro subscriber and three iterations. -/
theorem commit_counter_effects_witness :
    ((incrementUsage 50000)^[3] rowW6).daily_message_count.getD 0 =
      rowW6.daily_message_count.getD 0 + 3 ∧
    (resolveTier rowW6.subscription_tier = "pro" ∧
      rowW6.subscription_status = some "active") ∧
    ((incrementUsage 50000)^[3] rowW6).monthly_message_count.getD 0 =
      rowW6.monthly_message_count.getD 0 + 3 :=
  ⟨(commit_counter_effects 50000 3 rowW6).2.2.2.2.2.2.1, ⟨by decide, rfl⟩,
    (commit_counter_effects 50000 3 rowW6).2.2.2.2.2.2.2.2 ⟨by decide, rfl⟩⟩

/-- C7 (amended): the usage-quota functions surface store failures as
generic errors distinct from a quota denial (`checkUsageEntry` on a read
failure or a missing record yields `Except.error` of a plain message and
never an allowed result), but the subscription helper
`checkMessageAccess` makes the fail-open decision internally: a thrown
entitlement lookup yields `allowed = true` and an API error field yields
`allowed = false`, indistinguishable from a policy denial. -/
theorem store_failure_handling (nA now : Nat) (userId e : String) :
    checkUsageEntry nA now userId (StoreRead.err e) =
      Except.error ("Error fetchClienting user data: " ++ e) ∧
    checkUsageEntry nA now userId StoreRead.missing =
      Except.error ("User record not found for id: " ++ userId) ∧
    (∀ m, checkMessageAccess (AutumnCheckOutcome.thrown m) =
      { allowed := true, balance := none, unlimited := false }) ∧
    (∀ m, checkMessageAccess (AutumnCheckOutcome.apiError m) =
      { allowed := false, balance := none, unlimited := false }) :=
  ⟨rfl, rfl, fun _ => rfl, fun _ => rfl⟩

/-- Counterexample to C7: when the entitlement lookup throws, the
check returns `allowed = true` — the fail-open decision is taken inside
the helper, not left to the caller. -/
theorem check_fails_open_on_thrown_lookup :
    checkMessageAccess (AutumnCheckOutcome.thrown "Autumn unreachable") =
      { allowed := true, balance := none, unlimited := false } := rfl

/-- C4: for a pro-tier active subscriber, `checkUsage` resets
`monthly_message_count` to zero (advancing `monthly_reset` to `now`)
if and only if `subscription_period_end` is present and `now` has
reached it; when it is absent the monthly counter and reset timestamp
are left untouched whatever `monthly_reset` holds, and the helper
`needsMonthlyReset` implements the same rule. -/
theorem pro_monthly_reset_iff_billing_period_end (nA now : Nat) (u : UserRow)
    (ht : u.subscription_tier = some "pro")
    (hs : u.subscription_status = some "active") :
    (checkUsage nA now u).1.monthly_message_count =
      (if monthlyResetDue now u then some 0 else u.monthly_message_count) ∧
    (checkUsage nA now u).1.monthly_reset =
      (if monthlyResetDue now u then some now else u.monthly_reset) ∧
    (monthlyResetDue now u = true ↔
      ∃ pe, u.subscription_period_end = some pe ∧ pe ≤ now) ∧
    (u.subscription_period_end = none →
      (checkUsage nA now u).1.monthly_message_count = u.monthly_message_count ∧
      (checkUsage nA now u).1.monthly_reset = u.monthly_reset) ∧
    needsMonthlyReset now u = monthlyResetDue now u := by
  have hrt : resolveTier u.subscription_tier = "pro" := by simp [resolveTier, ht]
  have hiff : monthlyResetDue now u = true ↔
      ∃ pe, u.subscription_period_end = some pe ∧ pe ≤ now := by
    unfold monthlyResetDue
    cases u.subscription_period_end <;> simp
  have hneeds : needsMonthlyReset now u = monthlyResetDue now u := by
    unfold needsMonthlyReset monthlyResetDue
    rw [hrt]
    cases u.subscription_period_end <;> simp
  have hmain : (checkUsage nA now u).1.monthly_message_count =
      (if monthlyResetDue now u then some 0 else u.monthly_message_count) ∧
    (checkUsage nA now u).1.monthly_reset =
      (if monthlyResetDue now u then some now else u.monthly_reset) := by
    have hpm := proMonthlyStage_pro_eq now u
    by_cases hq : 100 ≤ postResetMonthly now u
    · rw [if_pos hq] at hpm
      rw [checkUsage_pro_active_throw nA now u _ _ hrt hs hpm]
      by_cases hd : monthlyResetDue now u = true <;> simp [hd]
    · rw [if_neg hq] at hpm
      rw [checkUsage_pro_active_pass nA now u _ hrt hs hpm, dailyStage_fst]
      by_cases hn : isNewDayB now u.daily_reset = true <;>
        by_cases hd : monthlyResetDue now u = true <;> simp [hn, hd]
  refine ⟨hmain.1, hmain.2, hiff, fun hpe => ?_, hneeds⟩
  have hdue : monthlyResetDue now u = false := by simp [monthlyResetDue, hpe]
  rw [hmain.1, hmain.2, hdue]
  simp

/-- Witness for C4: billing period ended at 1000, check at 2000 resets the
monthly counter; the same subscriber with no period end is untouched. -/
theorem pro_monthly_reset_iff_billing_period_end_witness :
    (checkUsage 50 2000 rowW4).1.monthly_message_count = some 0 ∧
    (checkUsage 50 2000 rowW4).1.monthly_reset = some 2000 := by
  have h := pro_monthly_reset_iff_billing_period_end 50 2000 rowW4 rfl rfl
  refine ⟨?_, ?_⟩
  · rw [h.1]; decide
  · rw [h.2.1]; decide

/-- C5: for each tier, `checkUsage` denies exactly when the relevant
finite limit is met or exceeded by the post-reset count (a count equal
to the limit denies, one below allows): the free tier against its daily
cap of 1000, anonymous users against the caller-supplied cap, an active
pro subscription against the monthly cap of 100 (its daily limit is
unbounded, and for an anonymous pro row the monthly denial is evaluated
before the daily one), and max/ultra never deny. In particular an
active pro subscriber with `postResetMonthly = 100` is denied with the
monthly message even when the daily count is zero. -/
theorem check_denies_iff_finite_limit_reached (nA now : Nat) (u : UserRow) :
    (resolveTier u.subscription_tier = "free" → u.anonymous = false →
      (checkUsage nA now u).2 =
        (if 1000 ≤ postResetDaily now u then
          Except.error (CheckError.usageLimit "Daily message limit reached.")
        else Except.ok ⟨postResetDaily now u, some 1000, "free",
          u.monthly_message_count.getD 0⟩)) ∧
    (¬(resolveTier u.subscription_tier = "pro" ∧ u.subscription_status = some "active") →
      u.anonymous = true →
      (checkUsage nA now u).2 =
        (if nA ≤ postResetDaily now u then
          Except.error (CheckError.usageLimit "Daily message limit reached.")
        else Except.ok ⟨postResetDaily now u, some nA, resolveTier u.subscription_tier,
          u.monthly_message_count.getD 0⟩)) ∧
    (resolveTier u.subscription_tier = "pro" → u.subscription_status = some "active" →
      u.anonymous = false →
      (checkUsage nA now u).2 =
        (if 100 ≤ postResetMonthly now u then
          Except.error (CheckError.usageLimit
            "Monthly message limit reached. Upgrade to Max for unlimited messages.")
        else Except.ok ⟨postResetDaily now u, none, "pro",
          u.monthly_message_count.getD 0⟩)) ∧
    (resolveTier u.subscription_tier = "pro" → u.subscription_status = some "active" →
      u.anonymous = true →
      (checkUsage nA now u).2 =
        (if 100 ≤ postResetMonthly now u then
          Except.error (CheckError.usageLimit
            "Monthly message limit reached. Upgrade to Max for unlimited messages.")
        else if nA ≤ postResetDaily now u then
          Except.error (CheckError.usageLimit "Daily message limit reached.")
        else Except.ok ⟨postResetDaily now u, some nA, "pro",
          u.monthly_message_count.getD 0⟩)) ∧
    ((resolveTier u.subscription_tier = "max" ∨ resolveTier u.subscription_tier = "ultra") →
      u.anonymous = false →
      (checkUsage nA now u).2 =
        Except.ok ⟨postResetDaily now u, none, resolveTier u.subscription_tier,
          u.monthly_message_count.getD 0⟩) := by
  refine ⟨?_, ?_, ?_, ?_, ?_⟩
  · intro h1 h2
    have hp : ¬(resolveTier u.subscription_tier = "pro" ∧
        u.subscription_status = some "active") := by rw [h1]; simp
    have h := checkUsage_not_proactive_auth nA now u ⟨some 1000, none, false, false, some 5⟩
      (by rw [h1]; rfl) hp h2
    rw [h, h1]
    exact dailyStage_snd_some "free" 1000 now u u
  · intro hp h2
    rw [checkUsage_anon nA now u hp h2]
    exact dailyStage_snd_some (resolveTier u.subscription_tier) nA now u u
  · intro h1 h2 h3
    have hpm := proMonthlyStage_pro_eq now u
    by_cases hq : 100 ≤ postResetMonthly now u
    · rw [if_pos hq] at hpm
      rw [checkUsage_pro_active_throw nA now u _ _ h1 h2 hpm, if_pos hq]
    · rw [if_neg hq] at hpm
      rw [checkUsage_pro_active_pass nA now u _ h1 h2 hpm, if_neg hq, h3]
      simp only [Bool.false_eq_true, if_false]
      exact dailyStage_snd_none "pro" now u _
  · intro h1 h2 h3
    have hpm := proMonthlyStage_pro_eq now u
    by_cases hq : 100 ≤ postResetMonthly now u
    · rw [if_pos hq] at hpm
      rw [checkUsage_pro_active_throw nA now u _ _ h1 h2 hpm, if_pos hq]
    · rw [if_neg hq] at hpm
      rw [checkUsage_pro_active_pass nA now u _ h1 h2 hpm, if_neg hq, h3]
      simp only [if_true]
      exact dailyStage_snd_some "pro" nA now u _
  · intro h1 h2
    rcases h1 with h1 | h1
    · have hp : ¬(resolveTier u.subscription_tier = "pro" ∧
          u.subscription_status = some "active") := by rw [h1]; simp
      have h := checkUsage_not_proactive_auth nA now u ⟨none, none, true, false, none⟩
        (by rw [h1]; rfl) hp h2
      rw [h, h1]
      exact dailyStage_snd_none "max" now u u
    · have hp : ¬(resolveTier u.subscription_tier = "pro" ∧
          u.subscription_status = some "active") := by rw [h1]; simp
      have h := checkUsage_not_proactive_auth nA now u ⟨none, none, true, true, none⟩
        (by rw [h1]; rfl) hp h2
      rw [h, h1]
      exact dailyStage_snd_none "ultra" now u u

/-- Witness for C5, the spec's scenario: active pro subscriber with
`monthly_message_count = 100` (the limit), a zero daily count and a
current daily window is denied with the monthly-limit message. -/
theorem check_denies_iff_finite_limit_reached_witness :
    rowW5.daily_message_count = some 0 ∧
    (checkUsage 50 50000 rowW5).2 =
      Except.error (CheckError.usageLimit
        "Monthly message limit reached. Upgrade to Max for unlimited messages.") := by
  have h := (check_denies_iff_finite_limit_reached 50 50000 rowW5).2.2.1
    (by decide) rfl rfl
  refine ⟨rfl, ?_⟩
  rw [h, if_pos (by decide : 100 ≤ postResetMonthly 50000 rowW5)]

theorem checkProUsage_fst (p now : Nat) (u : UserRow) :
    (checkProUsage p now u).1 =
      (if isNewDayB now u.daily_pro_reset then
        { u with daily_pro_message_count := some 0, daily_pro_reset := some now }
      else u) := by
  simp only [checkProUsage]
  split <;> split <;> rfl

/-- C3 (amended): provided the check is not aborted before the daily
window is handled (by the pro-tier monthly-limit denial, or by the
lookup error an unrecognized stored tier causes for a non-anonymous
row), `checkUsage` zeroes `daily_message_count` and advances
`daily_reset` to `now` exactly when the stored timestamp is absent or
its UTC calendar day differs from `now`'s; after such a reset a second
check on the same UTC day never resets again; and `checkProUsage`
applies the same calendar rule to the pro-model counter
unconditionally. -/
theorem daily_reset_iff_utc_day_changed (nA p now : Nat) (u : UserRow)
    (hm : ¬(resolveTier u.subscription_tier = "pro" ∧
            u.subscription_status = some "active" ∧ 100 ≤ postResetMonthly now u))
    (htl : u.anonymous = true ∨ TIER_LIMITS (resolveTier u.subscription_tier) ≠ none) :
    ((checkUsage nA now u).1.daily_message_count =
       (if isNewDayB now u.daily_reset then some 0 else u.daily_message_count)) ∧
    ((checkUsage nA now u).1.daily_reset =
       (if isNewDayB now u.daily_reset then some now else u.daily_reset)) ∧
    (isNewDayB now u.daily_reset = true ↔
       u.daily_reset = none ∨ ∃ l, u.daily_reset = some l ∧ utcDate now ≠ utcDate l) ∧
    (∀ t, utcDate t = utcDate now → isNewDayB t (some now) = false) ∧
    ((checkProUsage p now u).1.daily_pro_message_count =
       (if isNewDayB now u.daily_pro_reset then some 0 else u.daily_pro_message_count)) ∧
    ((checkProUsage p now u).1.daily_pro_reset =
       (if isNewDayB now u.daily_pro_reset then some now else u.daily_pro_reset)) := by
  have hdaily : ((checkUsage nA now u).1.daily_message_count =
       (if isNewDayB now u.daily_reset then some 0 else u.daily_message_count)) ∧
      ((checkUsage nA now u).1.daily_reset =
       (if isNewDayB now u.daily_reset then some now else u.daily_reset)) := by
    by_cases hpa : resolveTier u.subscription_tier = "pro" ∧
        u.subscription_status = some "active"
    · obtain ⟨h1, h2⟩ := hpa
      have hq : ¬(100 ≤ postResetMonthly now u) := fun hq => hm ⟨h1, h2, hq⟩
      have hpm := proMonthlyStage_pro_eq now u
      rw [if_neg hq] at hpm
      rw [checkUsage_pro_active_pass nA now u _ h1 h2 hpm, dailyStage_fst]
      by_cases hn : isNewDayB now u.daily_reset = true <;>
        by_cases hd : monthlyResetDue now u = true <;> simp [hn, hd]
    · by_cases ha : u.anonymous = true
      · rw [checkUsage_anon nA now u hpa ha, dailyStage_fst]
        by_cases hn : isNewDayB now u.daily_reset = true <;> simp [hn]
      · have hne : TIER_LIMITS (resolveTier u.subscription_tier) ≠ none := by
          rcases htl with h | h
          · exact absurd h ha
          · exact h
        obtain ⟨tl, htl2⟩ : ∃ tl, TIER_LIMITS (resolveTier u.subscription_tier) = some tl := by
          cases hx : TIER_LIMITS (resolveTier u.subscription_tier) with
          | none => exact absurd hx hne
          | some tl => exact ⟨tl, rfl⟩
        rw [checkUsage_not_proactive_auth nA now u tl htl2 hpa (by simpa using ha),
          dailyStage_fst]
        by_cases hn : isNewDayB now u.daily_reset = true <;> simp [hn]
  have hpro := checkProUsage_fst p now u
  refine ⟨hdaily.1, hdaily.2, ?_, ?_, ?_, ?_⟩
  · cases u.daily_reset <;> simp [isNewDayB]
  · intro t ht2
    simp [isNewDayB, ht2]
  · rw [hpro]
    by_cases hn : isNewDayB now u.daily_pro_reset = true <;> simp [hn]
  · rw [hpro]
    by_cases hn : isNewDayB now u.daily_pro_reset = true <;> simp [hn]

/-- Witness for the amended C3: a free-tier row whose window dates from
1970-01-01 is reset by a check on 1970-01-02. -/
theorem daily_reset_iff_utc_day_changed_witness :
    (checkUsage 50 90000000 rowW3).1.daily_message_count = some 0 ∧
    (checkUsage 50 90000000 rowW3).1.daily_reset = some 90000000 := by
  have h := daily_reset_iff_utc_day_changed 50 500 90000000 rowW3
    (by decide) (Or.inr (by decide))
  refine ⟨?_, ?_⟩
  · rw [h.1]; decide
  · rw [h.2.1]; decide

/-- Counterexample to C3 as stated: an active pro subscriber already at
the monthly limit is denied before the daily window is touched, so a
check on a new UTC day leaves the stale daily counter and reset
timestamp in place even though the UTC day has changed. -/
theorem daily_reset_skipped_when_monthly_denies :
    isNewDayB 90000000 rowC3.daily_reset = true ∧
    checkUsage 50 90000000 rowC3 =
      (rowC3, Except.error (CheckError.usageLimit
        "Monthly message limit reached. Upgrade to Max for unlimited messages.")) ∧
    rowC3.daily_reset = some 0 ∧ rowC3.daily_message_count = some 7 := by decide

/-- Counterexample to C1: an authenticated free-tier user requesting a
pro model is not denied with a capability error — `checkUsageByModel`
routes straight to the pro-model counter check and allows the request
(here with a zero counter and limit 500), even though
`canAccessProModels` reports that the tier lacks pro-model access. -/
theorem free_tier_pro_model_not_capability_blocked :
    canAccessProModels rowC1 = Except.ok false ∧
    checkUsageByModel ["free-model"] 1000 500 90000000 "gpt-5" true rowC1 =
      (rowC1, Except.ok (ByModelOk.proUsage 0 500)) := by decide

/-- C1 (amended): the per-request usage check contains no tier
capability gate; the gate exists only in the separate helper
`canAccessProModels`, which returns `Except.ok false` for every user
whose resolved tier is free or whose paid tier is not active — and its
verdict is independent of every counter, which it never reads. -/
theorem capability_gate_lives_in_canAccessProModels (u : UserRow)
    (h : resolveTier u.subscription_tier = "free" ∨
         (resolveTier u.subscription_tier ≠ "free" ∧
           u.subscription_status ≠ some "active")) :
    canAccessProModels u = Except.ok false ∧
    (∀ x y z, canAccessProModels
        { u with
            daily_message_count := x, monthly_message_count := y,
            daily_pro_message_count := z } = canAccessProModels u) := by
  constructor
  · rcases h with h | h
    · simp [canAccessProModels, h, TIER_LIMITS]
    · simp [canAccessProModels, h.1, h.2]
  · intro x y z
    rfl

/-- Witness for the amended C1 at a concrete free-tier row. -/
theorem capability_gate_lives_in_canAccessProModels_witness :
    (resolveTier rowW1.subscription_tier = "free" ∨
      (resolveTier rowW1.subscription_tier ≠ "free" ∧
        rowW1.subscription_status ≠ some "active")) ∧
    canAccessProModels rowW1 = Except.ok false :=
  ⟨Or.inl (by decide),
   (capability_gate_lives_in_canAccessProModels rowW1 (Or.inl (by decide))).1⟩

/-- Counterexample to C2: a pro-tier row whose subscription is canceled
keeps the pro limits in `checkUsage` — with a daily count of 5000, far
above the free cap of 1000, the check still allows the request and
reports the unbounded pro daily limit, instead of applying the free
tier's limits. -/
theorem inactive_pro_not_treated_as_free :
    checkUsage 50 90000000 rowC2 =
      (rowC2, Except.ok ⟨5000, none, "pro", 0⟩) ∧
    rowC2.subscription_status = some "canceled" ∧
    rowC2.daily_message_count = some 5000 := by decide

/-- C2 (amended): `checkUsage` resolves the tier directly from the
stored value (only an absent or empty tier falls back to free), so a
pro row with an inactive subscription keeps the pro limits: the monthly
check is skipped and the daily limit is the pro tier's unbounded one,
hence the standard check always allows; the separate helper
`hasMessageQuota` is what refuses inactive paid tiers. -/
theorem inactive_pro_keeps_pro_limits (nA now : Nat) (u : UserRow)
    (ht : u.subscription_tier = some "pro")
    (hs : u.subscription_status ≠ some "active")
    (ha : u.anonymous = false) :
    (checkUsage nA now u).2 =
      Except.ok ⟨postResetDaily now u, none, "pro", u.monthly_message_count.getD 0⟩ ∧
    hasMessageQuota u = Except.ok false := by
  have hrt : resolveTier u.subscription_tier = "pro" := by simp [resolveTier, ht]
  constructor
  · have hp : ¬(resolveTier u.subscription_tier = "pro" ∧
        u.subscription_status = some "active") := fun hc => hs hc.2
    have h := checkUsage_not_proactive_auth nA now u ⟨none, some 100, true, false, some 20⟩
      (by rw [hrt]; rfl) hp ha
    rw [h, hrt]
    exact dailyStage_snd_none "pro" now u u
  · simp [hasMessageQuota, hrt, hs]

/-- Witness for the amended C2 at the concrete canceled-pro row. -/
theorem inactive_pro_keeps_pro_limits_witness :
    (rowC2.subscription_tier = some "pro" ∧
      rowC2.subscription_status ≠ some "active" ∧ rowC2.anonymous = false) ∧
    (checkUsage 50 90000000 rowC2).2 =
      Except.ok ⟨postResetDaily 90000000 rowC2, none, "pro",
        rowC2.monthly_message_count.getD 0⟩ :=
  ⟨⟨rfl, by decide, rfl⟩,
   (inactive_pro_keeps_pro_limits 50 90000000 rowC2 rfl (by decide) rfl).1⟩

/-- Counterexample to C8: a stored tier value outside the four defined
tiers is not treated as free — the limits lookup yields `undefined` and
`checkUsage` fails with a `TypeError` instead of applying free limits. -/
theorem unrecognized_tier_raises_type_error :
    checkUsage 50 0 rowC8 = (rowC8, Except.error CheckError.jsTypeError) := by decide

/-- C8 (amended): the free fallback covers only absent values — a null
or empty stored tier resolves to `free`, and the lookup is defined on
all four tier names — but a non-empty unrecognized tier string yields
no limits object, and a non-anonymous `checkUsage` then fails with a
`TypeError` rather than using the free-tier limits (`hasMessageQuota`
only dereferences the limits object for the pro tier, so it returns a
verdict even for unrecognized tiers). -/
theorem tier_fallback_only_for_absent_values (nA now : Nat) (u : UserRow) :
    resolveTier none = "free" ∧ resolveTier (some "") = "free" ∧
    (TIER_LIMITS "free").isSome = true ∧ (TIER_LIMITS "pro").isSome = true ∧
    (TIER_LIMITS "max").isSome = true ∧ (TIER_LIMITS "ultra").isSome = true ∧
    (u.anonymous = false → TIER_LIMITS (resolveTier u.subscription_tier) = none →
      checkUsage nA now u = (u, Except.error CheckError.jsTypeError)) := by
  refine ⟨rfl, rfl, rfl, rfl, rfl, rfl, fun ha h => ?_⟩
  exact checkUsage_unrecognized nA now u h ha

/-- Witness for the amended C8 at a concrete out-of-domain tier. -/
theorem tier_fallback_only_for_absent_values_witness :
    (rowW8.anonymous = false ∧ TIER_LIMITS (resolveTier rowW8.subscription_tier) = none) ∧
    checkUsage 50 0 rowW8 = (rowW8, Except.error CheckError.jsTypeError) :=
  ⟨⟨rfl, by decide⟩,
   (tier_fallback_only_for_absent_values 50 0 rowW8).2.2.2.2.2.2 rfl (by decide)⟩
